import Mathlib

/-!
Shallow embedding of the `blocker` EBS volume driver (`src/ebs_driver.go`).

The driver's externally visible behaviour depends on three kinds of outside
state: the EC2 API (volumes, attachments, attach/detach/create calls), the
local filesystem (`os.Lstat`, `os.Stat`, `os.MkdirAll`, `os.Remove`) and OS
commands (`mkfs`, `mount`, `umount`, `mountpoint`).  Each embedded function
takes those dependencies as an explicit environment of pure functions and,
where a claim is about which provider calls are issued, additionally returns
the trace of provider calls it makes.
-/

namespace Blocker

/-- One EC2 volume attachment (`ec2.VolumeAttachment`): fields `Device`,
`State` and `InstanceId` as used by `ebs_driver.go`. -/
structure Attachment where
  device : String
  state : String
  instanceId : String
  deriving Repr, DecidableEq

/-- An EC2 volume (`ec2.Volume`) as observed by the driver: `VolumeId`,
`State`, `Attachments` and the tag list (key/value pairs). -/
structure EC2Volume where
  volumeId : String
  state : String
  attachments : List Attachment
  tags : List (String × String)
  deriving Repr, DecidableEq

/-- `ec2.VolumeAttachmentStateAttached`. -/
def volumeAttachmentStateAttached : String := "attached"

/-- `ec2.VolumeStateAvailable`. -/
def volumeStateAvailable : String := "available"

/-- Provider (EC2 API) calls the driver can issue, recorded as a trace. -/
inductive ProviderCall where
  | createVolume (size : Int)
  | createTags (volumeId name : String)
  | attachVolume (device : String)
  | detachVolume
  deriving Repr, DecidableEq

/-! ## `parsePath` (ebs_driver.go:219-225)

`strings.Index(path, "/")` finds the first `/`; the path splits into the
part before it and the part from it on (the separator included in the
second component). -/

/-- Split a character list at the first `'/'`: the first component is the
prefix before it, the second the suffix starting with it (empty when there
is no `'/'`). -/
def splitSlash : List Char → List Char × List Char
  | [] => ([], [])
  | c :: cs =>
    if c = '/' then ([], c :: cs)
    else
      let (v, f) := splitSlash cs
      (c :: v, f)

/-- `parsePath` (ebs_driver.go:219): returns `(volume, folder)` —
`(path[:sep], path[sep:])` for `sep` the index of the first `/`, or
`(path, "")` when there is none. -/
def parsePath (path : String) : String × String :=
  (String.mk (splitSlash path.toList).1, String.mk (splitSlash path.toList).2)

/-! ## Go `strconv.ParseInt(s, 10, 64)` as used by `Create` (ebs_driver.go:68)

`ParseInt` with base 10 and bitSize 64: an optional sign followed by at
least one decimal digit.  A syntactically invalid string yields value 0
with an error; a syntactically valid but out-of-range string yields the
clamped extreme with a range error.  `Create` discards the error. -/

/-- Value of a nonempty all-decimal-digit string; `none` when empty or when
any character is not a digit (Go returns a syntax error then). -/
def parseDigits (cs : List Char) : Option Nat :=
  match cs with
  | [] => none
  | _ =>
    cs.foldl
      (fun acc c =>
        match acc with
        | none => none
        | some n => if c.isDigit then some (n * 10 + (c.toNat - '0'.toNat)) else none)
      (some 0)

/-- Go `strconv.ParseInt(s, 10, 64)`: the returned value paired with
whether parsing succeeded without error. -/
def parseInt64 (s : String) : Int × Bool :=
  match s.toList with
  | [] => (0, false)
  | c :: cs =>
    let signDigits : Bool × List Char :=
      if c = '+' then (false, cs)
      else if c = '-' then (true, cs)
      else (false, c :: cs)
    match parseDigits signDigits.2 with
    | none => (0, false)
    | some n =>
      if signDigits.1 then
        if n > 2 ^ 63 then (-(2 ^ 63 : Int), false) else (-(n : Int), true)
      else
        if n ≥ 2 ^ 63 then ((2 ^ 63 : Int) - 1, false) else ((n : Int), true)

/-- A string is a syntactically valid decimal integer literal for
`ParseInt(s, 10, 64)`: an optional sign followed by one or more digits. -/
def syntaxValidInt (s : String) : Bool :=
  match s.toList with
  | [] => false
  | c :: cs =>
    let digits := if c = '+' ∨ c = '-' then cs else c :: cs
    decide (digits ≠ []) && digits.all Char.isDigit

/-- Go map indexing `options["size"]`: the value for the first matching key,
or the zero value `""` when the key is absent. -/
def optGet (options : List (String × String)) (key : String) : String :=
  match options.find? (fun kv => kv.1 = key) with
  | some kv => kv.2
  | none => ""

/-! ## `Path` (ebs_driver.go:122-129)

`Path` stats `/mnt/blocker/<volume><folder>`; the environment is the
predicate "`os.Stat` succeeds and reports a directory". -/

/-- The mount root used throughout the driver. -/
def mountRoot : String := "/mnt/blocker/"

/-- `Path` (ebs_driver.go:122): `statIsDir p` says `os.Stat p` succeeded
and `IsDir()` returned true. -/
def Path (statIsDir : String → Bool) (path : String) : Except String String :=
  let vf := parsePath path
  let mnt := mountRoot ++ vf.1 ++ vf.2
  if statIsDir mnt then .ok mnt else .error "Volume not mounted."

/-! ## `Get` (ebs_driver.go:149-164) and `List` (ebs_driver.go:166-193)

Property maps are modelled as association lists in insertion order.
`Get` looks the volume up by name; on success it fills `Name` and
`AwsVolumeId`, then calls `Path(name)` and — as written in the source —
adds the `Mountpoint` key only when `Path` RETURNS AN ERROR, storing the
empty string `Path` produced alongside the error. -/

/-- Environment for `Get`: the result of `getEBSVolume name` and the
filesystem predicate used by `Path`. -/
structure GetEnv where
  getVolume : Except String EC2Volume
  statIsDir : String → Bool

/-- `Get` (ebs_driver.go:149). -/
def Get (env : GetEnv) (name : String) : Except String (List (String × String)) :=
  match env.getVolume with
  | .error e => .error e
  | .ok v =>
    let base := [("Name", name), ("AwsVolumeId", v.volumeId)]
    match Path env.statIsDir name with
    | .error _ => .ok (base ++ [("Mountpoint", "")])
    | .ok _ => .ok base

/-- `List` (ebs_driver.go:166): `describe` is the result of
`DescribeVolumes` filtered on tag-key `Name`.  For each volume the name is
read from `Tags[0].Value` and the same inverted `Mountpoint` fill as `Get`
is applied; a `Path` failure for one volume does not abort the listing. -/
def ListVolumes (describe : Except String (List EC2Volume))
    (statIsDir : String → Bool) : Except String (List (List (String × String))) :=
  match describe with
  | .error e => .error e
  | .ok vols =>
    .ok (vols.map (fun v =>
      let name := (v.tags.headD ("", "")).2
      let base := [("Name", name), ("AwsVolumeId", v.volumeId)]
      match Path statIsDir name with
      | .error _ => base ++ [("Mountpoint", "")]
      | .ok _ => base))

/-! ## `waitUntilState` (ebs_driver.go:263-291), the State Poller

The Go loop: `tries := 0`; repeat { `tries++`; fetch the volume (a fetch
error returns immediately); evaluate `check`; `nil` succeeds; at
`tries == 12` the check's own error is returned; otherwise sleep 5s and
retry }.  `fetch t` is the volume fetched on attempt `t` (attempts are
numbered from 1) and `check` returns `none` when satisfied, `some msg`
with its failure description otherwise.  The loop is embedded with the
remaining-attempt count as structural fuel; from the entry point
(`tries = 0`, 12 attempts remaining) the fuel never runs out because the
`tries == 12` exit fires first.  The second component counts how many
times `check` was evaluated. -/

/-- The retry loop of `waitUntilState`, from attempt `tries + 1`, with
`remaining` loop iterations of fuel; also returns the number of `check`
evaluations performed. -/
def waitLoop (fetch : Nat → Except String EC2Volume)
    (check : EC2Volume → Option String) :
    Nat → Nat → Except String Unit × Nat
  | _, 0 => (.ok (), 0)
  | tries, remaining + 1 =>
    let t := tries + 1
    match fetch t with
    | .error e => (.error e, 0)
    | .ok volume =>
      match check volume with
      | none => (.ok (), 1)
      | some e =>
        if t = 12 then (.error e, 1)
        else
          let r := waitLoop fetch check t remaining
          (r.1, r.2 + 1)

/-- `waitUntilState` (ebs_driver.go:263): the loop's result from the entry
point. -/
def waitUntilState (fetch : Nat → Except String EC2Volume)
    (check : EC2Volume → Option String) : Except String Unit :=
  (waitLoop fetch check 0 12).1

/-- Number of times `waitUntilState` evaluates its condition. -/
def waitEvalCount (fetch : Nat → Except String EC2Volume)
    (check : EC2Volume → Option String) : Nat :=
  (waitLoop fetch check 0 12).2

/-! ## `attachVolume` (ebs_driver.go:335-418), the Device Slot Allocator -/

/-- Outcome of an `ec2.AttachVolume` call as the driver distinguishes it:
success, the AWS error code `InvalidParameterValue` (device already in use
from the provider's view), or any other error. -/
inductive AttachCallOutcome where
  | ok
  | invalidParameterValue
  | otherError (e : String)
  deriving Repr, DecidableEq

/-- Environment of `attachVolume`: each field is the observable outcome of
one external dependency.  `lstat p` says `os.Lstat p` succeeded before any
attach; `waitAvailable` is the result of `waitUntilAvailable name`;
`attachCall dev` the outcome of `ec2.AttachVolume` for device `dev`;
`waitAttached dev` the result of `waitUntilAttached name` after requesting
attach at `dev`; `lstatAfter dev p` says `os.Lstat p`, performed after the
attach at `dev` completed, did NOT fail with `IsNotExist`. -/
structure AttachEnv where
  getVolume : Except String EC2Volume
  instanceId : String
  lstat : String → Bool
  waitAvailable : Except String Unit
  attachCall : String → AttachCallOutcome
  waitAttached : String → Except String Unit
  lstatAfter : String → String → Bool

/-- The candidate slot letters, in the source's scan order
(`for _, c := range "fghijklmnop"`). -/
def slotLetters : List Char := "fghijklmnop".toList

/-- The regexp `/dev/(xv|s)d([f-p])` applied at the head of `cs`: the
captured slot letter when the pattern matches here. -/
def matchDevHere (cs : List Char) : Option Char :=
  match cs with
  | '/' :: 'd' :: 'e' :: 'v' :: '/' :: 'x' :: 'v' :: 'd' :: l :: _ =>
    if 'f' ≤ l ∧ l ≤ 'p' then some l else none
  | '/' :: 'd' :: 'e' :: 'v' :: '/' :: 's' :: 'd' :: l :: _ =>
    if 'f' ≤ l ∧ l ≤ 'p' then some l else none
  | _ => none

/-- `regexp.FindStringSubmatch` for `/dev/(xv|s)d([f-p])`: the captured
letter of the leftmost match, scanning positions left to right (the two
alternatives cannot both match at one position, their sixth characters
differ). -/
def matchDevice : List Char → Option Char
  | [] => none
  | c :: cs =>
    match matchDevHere (c :: cs) with
    | some l => some l
    | none => matchDevice cs

/-- The idempotent short-circuit of `attachVolume` (ebs_driver.go:336-356):
`some r` when the function returns here with result `r`, `none` when
control falls through to the availability wait and slot scan.  The Go code
falls through both when the attachment check fails and — notably — when
the regexp matched but neither alias path exists locally. -/
def attachShort (env : AttachEnv) (name : String) (volume : EC2Volume) :
    Option (Except String String) :=
  match volume.attachments with
  | [a] =>
    if a.state = volumeAttachmentStateAttached ∧ a.instanceId = env.instanceId then
      match matchDevice a.device.toList with
      | none => some (.error ("Unable to find mount device for " ++ name))
      | some l =>
        if env.lstat ("/dev/sd" ++ String.mk [l]) then
          some (.ok ("/dev/sd" ++ String.mk [l]))
        else if env.lstat ("/dev/xvd" ++ String.mk [l]) then
          some (.ok ("/dev/xvd" ++ String.mk [l]))
        else none
    else none
  | _ => none

/-- The slot scan of `attachVolume` (ebs_driver.go:369-417) over the
remaining candidate letters; returns the result together with the trace of
provider calls issued. -/
def attachScan (env : AttachEnv) (name : String) :
    List Char → Except String String × List ProviderCall
  | [] => (.error "No devices available for attach: /dev/sd[f-p] taken.", [])
  | c :: rest =>
    let dev := "/dev/sd" ++ String.mk [c]
    let altdev := "/dev/xvd" ++ String.mk [c]
    if env.lstat dev then attachScan env name rest
    else if env.lstat altdev then attachScan env name rest
    else
      match env.attachCall dev with
      | .invalidParameterValue =>
        let r := attachScan env name rest
        (r.1, .attachVolume dev :: r.2)
      | .otherError e => (.error e, [.attachVolume dev])
      | .ok =>
        match env.waitAttached dev with
        | .error e => (.error e, [.attachVolume dev])
        | .ok _ =>
          if ¬ env.lstatAfter dev dev then
            if ¬ env.lstatAfter dev altdev then
              (.error ("Device " ++ dev ++ " is missing after attach."),
                [.attachVolume dev, .detachVolume])
            else (.ok altdev, [.attachVolume dev])
          else (.ok dev, [.attachVolume dev])

/-- `attachVolume` (ebs_driver.go:335): result and trace of provider
calls. -/
def attachVolume (env : AttachEnv) (name : String) :
    Except String String × List ProviderCall :=
  match env.getVolume with
  | .error e => (.error e, [])
  | .ok volume =>
    match attachShort env name volume with
    | some r => (r, [])
    | none =>
      match env.waitAvailable with
      | .error e => (.error e, [])
      | .ok _ => attachScan env name slotLetters

/-! ## `Create` (ebs_driver.go:60-111) -/

/-- Environment of `Create`: `createVolume size` is the outcome of
`ec2.CreateVolume` (the new volume id on success); `attach` the result and
provider-call trace of `attachVolume name`; `mkfs dev` the outcome of
`exec.Command("mkfs", "-t", "ext4", dev)` (`none` on success, `some
combined` carrying `err` and output on failure); `detach` the result of
`detachVolume name`, which `Create` discards in both branches. -/
structure CreateEnv where
  createVolume : Int → Except String String
  attach : Except String String × List ProviderCall
  mkfs : String → Option String
  detach : Except String Unit

/-- `Create` (ebs_driver.go:60): returns `none` on success or `some err`,
together with the trace of provider calls issued. -/
def Create (env : CreateEnv) (name : String)
    (options : List (String × String)) : Option String × List ProviderCall :=
  let size := (parseInt64 (optGet options "size")).1
  match env.createVolume size with
  | .error e => (some e, [.createVolume size])
  | .ok volumeId =>
    let pre := [ProviderCall.createVolume size, .createTags volumeId name]
    match env.attach.1 with
    | .error e => (some e, pre ++ env.attach.2)
    | .ok device =>
      match env.mkfs device with
      | some out =>
        (some ("Formatting device " ++ device ++ " failed: " ++ out),
          pre ++ env.attach.2 ++ [.detachVolume])
      | none => (none, pre ++ env.attach.2 ++ [.detachVolume])

/-! ## `doMount` (ebs_driver.go:227-261) and `Mount` (ebs_driver.go:113-120) -/

/-- Environment of `doMount`: `mkdirAll` is the outcome of
`os.MkdirAll mnt`; `statIsDir` says the subsequent `os.Stat mnt` succeeded
and reported a directory; `isMountpoint` says `mountpoint -q mnt` exited
zero; `attach` is the result and trace of `attachVolume name`;
`mountCmd dev` the outcome of `mount dev mnt` (`none` on success). -/
structure MountEnv where
  mkdirAll : Except String Unit
  statIsDir : Bool
  isMountpoint : Bool
  attach : Except String String × List ProviderCall
  mountCmd : String → Option String

/-- `doMount` (ebs_driver.go:227): result and provider-call trace. -/
def doMount (env : MountEnv) (name : String) :
    Except String String × List ProviderCall :=
  let mnt := mountRoot ++ name
  match env.mkdirAll with
  | .error e => (.error e, [])
  | .ok _ =>
    if ¬ env.statIsDir then
      (.error ("Mountpoint " ++ mnt ++ " is not a directory."), [])
    else if env.isMountpoint then (.ok mnt, [])
    else
      match env.attach.1 with
      | .error e => (.error e, env.attach.2)
      | .ok dev =>
        match env.mountCmd dev with
        | some out =>
          (.error ("Mounting device " ++ dev ++ " to " ++ mnt ++ " failed: " ++ out),
            env.attach.2 ++ [.detachVolume])
        | none => (.ok mnt, env.attach.2)

/-- `Mount` (ebs_driver.go:113): parses the path, mounts the volume part
and appends the folder part to the returned mountpoint. -/
def Mount (env : MountEnv) (path : String) :
    Except String String × List ProviderCall :=
  let vf := parsePath path
  let r := doMount env vf.1
  match r.1 with
  | .error e => (.error e, r.2)
  | .ok mnt => (.ok (mnt ++ vf.2), r.2)

/-! ## `doUnmount` (ebs_driver.go:420-440), `Unmount` and `Remove`
(ebs_driver.go:131-147) -/

/-- The three externally visible steps `doUnmount` can take, in the order
it takes them. -/
inductive UnmountStep where
  | umountCmd
  | removeDir
  | detach
  deriving Repr, DecidableEq

/-- Environment of `doUnmount`: `umount` is the outcome of
`exec.Command("umount", mnt)` (`none` on success, `some combined` on
failure); `removeDir` of `os.Remove mnt`; `detach` of `detachVolume`. -/
structure UnmountEnv where
  umount : Option String
  removeDir : Except String Unit
  detach : Except String Unit

/-- `doUnmount` (ebs_driver.go:420): the error result (if any) and the
trace of steps performed, in order. -/
def doUnmount (env : UnmountEnv) (name : String) :
    Option String × List UnmountStep :=
  let mnt := mountRoot ++ name
  match env.umount with
  | some out =>
    (some ("Unmounting " ++ mnt ++ " failed: " ++ out), [.umountCmd])
  | none =>
    match env.removeDir with
    | .error e => (some e, [.umountCmd, .removeDir])
    | .ok _ =>
      match env.detach with
      | .error e => (some e, [.umountCmd, .removeDir, .detach])
      | .ok _ => (none, [.umountCmd, .removeDir, .detach])

/-- `Unmount` (ebs_driver.go:140): parses the path and unmounts the volume
part. -/
def Unmount (env : UnmountEnv) (path : String) :
    Option String × List UnmountStep :=
  doUnmount env (parsePath path).1

/-- `Remove` (ebs_driver.go:131): identical body to `Unmount`. -/
def Remove (env : UnmountEnv) (path : String) :
    Option String × List UnmountStep :=
  doUnmount env (parsePath path).1

/-! ## Concrete environments used to evaluate claims on closed inputs -/

/-- A mount environment in which the volume is already mounted and every
external step would succeed. -/
def mountedEnv : MountEnv where
  mkdirAll := .ok ()
  statIsDir := true
  isMountpoint := true
  attach := (.ok "/dev/sdf", [.attachVolume "/dev/sdf"])
  mountCmd := fun _ => none

/-- An unmount environment whose `umount` command fails. -/
def umountFailEnv : UnmountEnv where
  umount := some "target is busy"
  removeDir := .ok ()
  detach := .ok ()

/-- A volume with no attachments, tagged `Name=vol1`. -/
def unattachedVol : EC2Volume where
  volumeId := "vol-1"
  state := "available"
  attachments := []
  tags := [("Name", "vol1")]

/-- Attach environment for the slot-scan claims: slots `f` and `g` are
occupied (one by each naming alias), everything else succeeds. -/
def scanEnvFG : AttachEnv where
  getVolume := .ok unattachedVol
  instanceId := "i-1"
  lstat := fun s => s == "/dev/sdf" || s == "/dev/xvdg"
  waitAvailable := .ok ()
  attachCall := fun _ => .ok
  waitAttached := fun _ => .ok ()
  lstatAfter := fun _ _ => true

/-- Attach environment in which every slot is occupied. -/
def scanEnvFull : AttachEnv where
  getVolume := .ok unattachedVol
  instanceId := "i-1"
  lstat := fun _ => true
  waitAvailable := .ok ()
  attachCall := fun _ => .ok
  waitAttached := fun _ => .ok ()
  lstatAfter := fun _ _ => true

/-- The already-attached attachment record used for the idempotence
claim. -/
def attachedAtF : Attachment where
  device := "/dev/sdf"
  state := "attached"
  instanceId := "i-1"

/-- A volume attached to instance `i-1` at slot `f`. -/
def attachedVol : EC2Volume where
  volumeId := "vol-1"
  state := "in-use"
  attachments := [attachedAtF]
  tags := [("Name", "vol1")]

/-- Attach environment where the volume is already attached to this host
but NEITHER local alias path exists: the short-circuit falls through. -/
def ghostAttachEnv : AttachEnv where
  getVolume := .ok attachedVol
  instanceId := "i-1"
  lstat := fun _ => false
  waitAvailable := .error "Volume state transition failed: seeking available, current is in-use"
  attachCall := fun _ => .ok
  waitAttached := fun _ => .ok ()
  lstatAfter := fun _ _ => true

/-- Attach environment where the volume is already attached to this host
and the primary alias path exists. -/
def presentAttachEnv : AttachEnv where
  getVolume := .ok attachedVol
  instanceId := "i-1"
  lstat := fun s => s == "/dev/sdf"
  waitAvailable := .error "unreached"
  attachCall := fun _ => .otherError "unreached"
  waitAttached := fun _ => .error "unreached"
  lstatAfter := fun _ _ => false

/-- Create environment whose format command fails and whose compensating
detach also fails; the detach failure must not be surfaced. -/
def mkfsFailEnv : CreateEnv where
  createVolume := fun _ => .ok "vol-1"
  attach := (.ok "/dev/sdf", [.attachVolume "/dev/sdf"])
  mkfs := fun _ => some "mkfs: wrong fs type"
  detach := .error "detach failed"

/-- Fetch sequence for the Poller claim: attempt `j` sees a volume whose
id records `j`, so the condition's failure message distinguishes
attempts. -/
def fetchC5 (j : Nat) : Except String EC2Volume :=
  .ok { volumeId := toString j, state := "creating", attachments := [], tags := [] }

/-- Condition for the Poller claim: never satisfied; fails with the
fetched volume's id as its description. -/
def checkC5 (v : EC2Volume) : Option String := some v.volumeId

/-- `Get` environment over a mounted volume (every stat succeeds). -/
def getEnvMounted : GetEnv where
  getVolume := .ok unattachedVol
  statIsDir := fun _ => true

/-- `Get` environment over an unmounted volume (every stat fails). -/
def getEnvUnmounted : GetEnv where
  getVolume := .ok unattachedVol
  statIsDir := fun _ => false

/-! # Theorems -/

/-- `splitSlash` is a partition of its input. -/
theorem splitSlash_append (cs : List Char) :
    (splitSlash cs).1 ++ (splitSlash cs).2 = cs := by
  induction cs with
  | nil => rfl
  | cons c cs ih =>
    by_cases h : c = '/'
    · simp [splitSlash, h]
    · simp [splitSlash, h, ih]

/-- The part before the first slash contains no slash. -/
theorem splitSlash_not_mem (cs : List Char) : '/' ∉ (splitSlash cs).1 := by
  induction cs with
  | nil => simp [splitSlash]
  | cons c cs ih =>
    by_cases h : c = '/'
    · simp [splitSlash, h]
    · have hred : splitSlash (c :: cs) = (c :: (splitSlash cs).1, (splitSlash cs).2) := by
        simp [splitSlash, h]
      rw [hred]
      simp only [List.mem_cons, not_or]
      exact ⟨Ne.symm h, ih⟩

/-- The part from the first slash on is empty or starts with a slash. -/
theorem splitSlash_head (cs : List Char) :
    (splitSlash cs).2 = [] ∨ (splitSlash cs).2.head? = some '/' := by
  induction cs with
  | nil => exact Or.inl rfl
  | cons c cs ih =>
    by_cases h : c = '/'
    · right; simp [splitSlash, h]
    · simpa [splitSlash, h] using ih

/-- String append on explicit character lists. -/
theorem mk_append_mk (a b : List Char) :
    String.mk a ++ String.mk b = String.mk (a ++ b) := rfl

/-- String append is associative. -/
theorem str_append_assoc (a b c : String) :
    a ++ b ++ c = a ++ (b ++ c) := by
  cases a; cases b; cases c
  simp [mk_append_mk, List.append_assoc]

/-- The two components of `parsePath` concatenate back to the input. -/
theorem parsePath_append (p : String) :
    (parsePath p).1 ++ (parsePath p).2 = p := by
  cases p with
  | mk data =>
    show String.mk _ ++ String.mk _ = String.mk data
    rw [mk_append_mk]
    show String.mk ((splitSlash data).1 ++ (splitSlash data).2) = String.mk data
    rw [splitSlash_append]

/-- A successful `doMount` always returns `mountRoot ++ name`. -/
theorem doMount_ok (env : MountEnv) (name m : String)
    (h : (doMount env name).1 = .ok m) : m = mountRoot ++ name := by
  unfold doMount at h
  rcases env with ⟨mk, sd, mp, att, mc⟩
  cases mk with
  | error e => simp at h
  | ok u =>
    simp only at h
    by_cases hsd : sd
    · simp [hsd] at h
      by_cases hmp : mp
      · simp [hmp] at h; exact h.symm
      · simp [hmp] at h
        cases hatt : att.1 with
        | error e => simp [hatt] at h
        | ok dev =>
          simp [hatt] at h
          cases hmc : mc dev with
          | none => simp [hmc] at h; exact h.symm
          | some out => simp [hmc] at h
    · simp [hsd] at h

/-- C10: `parsePath` splits a path into a slash-free volume name and a
folder part that is empty or begins with `/`, and the two concatenate back
to the input; consequently a successful `Mount p` returns exactly
`/mnt/blocker/ ++ p`, and `Path p` checks exactly the directory
`/mnt/blocker/ ++ p`. -/
theorem C10_parsePath_mount_path (p : String) (env : MountEnv)
    (stat : String → Bool) :
    '/' ∉ (parsePath p).1.toList ∧
    ((parsePath p).2 = "" ∨ (parsePath p).2.toList.head? = some '/') ∧
    (parsePath p).1 ++ (parsePath p).2 = p ∧
    (∀ m, (Mount env p).1 = .ok m → m = mountRoot ++ p) ∧
    Path stat p =
      (if stat (mountRoot ++ p) then .ok (mountRoot ++ p)
       else .error "Volume not mounted.") := by
  refine ⟨?_, ?_, parsePath_append p, ?_, ?_⟩
  · exact splitSlash_not_mem p.toList
  · rcases splitSlash_head p.toList with h | h
    · left
      show String.mk (splitSlash p.toList).2 = _
      rw [h]
    · right
      show (String.mk (splitSlash p.toList).2).toList.head? = some '/'
      simpa using h
  · intro m hm
    simp only [Mount] at hm
    split at hm
    · simp at hm
    · rename_i mnt heq
      simp only at hm
      have hmnt := doMount_ok env (parsePath p).1 mnt heq
      subst hmnt
      have hm' : mountRoot ++ (parsePath p).1 ++ (parsePath p).2 = m :=
        Except.ok.inj hm
      rw [← hm', str_append_assoc, parsePath_append]
  · simp only [Path]
    rw [str_append_assoc, parsePath_append]

/-- C10 witness: on the concrete path `vol1/sub` in an already-mounted
environment, `Mount` returns `/mnt/blocker/ ++ vol1/sub`. -/
theorem C10_parsePath_mount_path_witness :
    (Mount mountedEnv "vol1/sub").1 = .ok (mountRoot ++ "vol1/sub") := by
  have h := (C10_parsePath_mount_path "vol1/sub" mountedEnv (fun _ => true)).2.2.2.1
  have e : (Mount mountedEnv "vol1/sub").1 = .ok "/mnt/blocker/vol1/sub" := by rfl
  rw [e, h "/mnt/blocker/vol1/sub" e]

/-- C7: when the target mount directory exists, is a directory, and the OS
reports it as a live mountpoint, `Mount` returns the standard mountpoint
`/mnt/blocker/ ++ path` and issues no provider call at all — in particular
the Allocator's attach path (the `attach` field of the environment, left
arbitrary here) is not consulted. -/
theorem C7_mount_idempotent (env : MountEnv) (p : String)
    (hmk : env.mkdirAll = .ok ()) (hstat : env.statIsDir = true)
    (hmp : env.isMountpoint = true) :
    Mount env p = (.ok (mountRoot ++ p), []) := by
  have hdo : doMount env (parsePath p).1 = (.ok (mountRoot ++ (parsePath p).1), []) := by
    simp [doMount, hmk, hstat, hmp]
  simp only [Mount, hdo]
  rw [str_append_assoc, parsePath_append]

/-- C7 witness: concrete already-mounted environment and path. -/
theorem C7_mount_idempotent_witness :
    Mount mountedEnv "vol1" = (.ok (mountRoot ++ "vol1"), []) :=
  C7_mount_idempotent mountedEnv "vol1" rfl rfl rfl

/-- C8: `Unmount` and `Remove` are the same operation; on an `umount`
command failure the operation stops after that single step, returning the
command's failure (directory kept, no detach); when all steps succeed it
performs exactly unmount-command, directory-removal, detach, in that
order. -/
theorem C8_unmount_remove (env : UnmountEnv) (p : String) :
    Unmount env p = Remove env p ∧
    (∀ out, env.umount = some out →
      Unmount env p =
        (some ("Unmounting " ++ (mountRoot ++ (parsePath p).1) ++ " failed: " ++ out),
         [.umountCmd])) ∧
    (env.umount = none → env.removeDir = .ok () → env.detach = .ok () →
      Unmount env p = (none, [.umountCmd, .removeDir, .detach])) := by
  refine ⟨rfl, ?_, ?_⟩
  · intro out hout
    simp [Unmount, doUnmount, hout]
  · intro h1 h2 h3
    simp [Unmount, doUnmount, h1, h2, h3]

/-- C8 witness: a failing `umount` on the concrete path `vol1` aborts
after the unmount command alone. -/
theorem C8_unmount_remove_witness :
    Unmount umountFailEnv "vol1" =
      (some ("Unmounting " ++ (mountRoot ++ (parsePath "vol1").1) ++ " failed: " ++
        "target is busy"), [.umountCmd]) :=
  (C8_unmount_remove umountFailEnv "vol1").2.1 "target is busy" rfl

/-- C1 (code bug): with a mounted volume (`Path` succeeds) `Get` returns a
property map WITHOUT the `Mountpoint` key, and with an unmounted volume it
returns the `Mountpoint` key bound to the empty string — the exact inverse
of the claim; the third conjunct shows a `Path` failure still does not make
`List` fail as a whole. -/
theorem C1_mountpoint_inverted :
    Get getEnvMounted "vol1" = .ok [("Name", "vol1"), ("AwsVolumeId", "vol-1")] ∧
    Get getEnvUnmounted "vol1" =
      .ok [("Name", "vol1"), ("AwsVolumeId", "vol-1"), ("Mountpoint", "")] ∧
    ListVolumes (.ok [unattachedVol]) (fun _ => false) =
      .ok [[("Name", "vol1"), ("AwsVolumeId", "vol-1"), ("Mountpoint", "")]] :=
  ⟨rfl, rfl, rfl⟩

/-- The retry loop evaluates its condition at most once per remaining
attempt. -/
theorem waitLoop_count_le (fetch : Nat → Except String EC2Volume)
    (check : EC2Volume → Option String) :
    ∀ remaining tries, (waitLoop fetch check tries remaining).2 ≤ remaining := by
  intro remaining
  induction remaining with
  | zero => intro tries; simp [waitLoop]
  | succ r ih =>
    intro tries
    rcases hf : fetch (tries + 1) with e | v
    · simp [waitLoop, hf]
    · rcases hc : check v with _ | e
      · simp [waitLoop, hf, hc]
      · by_cases h : tries + 1 = 12
        · rw [h] at hf
          simp [waitLoop, hf, hc, h]
        · simp only [waitLoop, hf, hc, h, if_false]
          have := ih (tries + 1)
          omega

/-- If every attempt from `tries + 1` through 12 fetches successfully and
fails the condition with description `msg j`, the loop returns the LAST
failure description, `msg 12`. -/
theorem waitLoop_all_fail (fetch : Nat → Except String EC2Volume)
    (check : EC2Volume → Option String) (msg : Nat → String)
    (H : ∀ j, 1 ≤ j → j ≤ 12 → ∃ v, fetch j = .ok v ∧ check v = some (msg j)) :
    ∀ remaining tries, tries + remaining = 12 → 1 ≤ remaining →
      (waitLoop fetch check tries remaining).1 = .error (msg 12) := by
  intro remaining
  induction remaining with
  | zero => intro tries _ h1; omega
  | succ r ih =>
    intro tries hsum _
    obtain ⟨v, hv, hc⟩ := H (tries + 1) (by omega) (by omega)
    simp only [waitLoop, hv, hc]
    by_cases ht : tries + 1 = 12
    · simp [ht]
    · simp only [ht, if_false]
      exact ih (tries + 1) (by omega) (by omega)

/-- If attempts `tries + 1 ..< k` fetch successfully but fail the
condition, and attempt `k ≤ 12` satisfies it, the loop succeeds. -/
theorem waitLoop_first_success (fetch : Nat → Except String EC2Volume)
    (check : EC2Volume → Option String) (k : Nat) :
    ∀ remaining tries, tries + remaining = 12 → tries < k → k ≤ 12 →
      (∀ j, tries < j → j < k → ∃ v m, fetch j = .ok v ∧ check v = some m) →
      (∃ v, fetch k = .ok v ∧ check v = none) →
      (waitLoop fetch check tries remaining).1 = .ok () := by
  intro remaining
  induction remaining with
  | zero => intro tries hsum hlt hle _ _; omega
  | succ r ih =>
    intro tries hsum hlt hle Hf Hs
    by_cases hk : tries + 1 = k
    · obtain ⟨v, hv, hc⟩ := Hs
      rw [← hk] at hv
      simp [waitLoop, hv, hc]
    · obtain ⟨v, m, hv, hc⟩ := Hf (tries + 1) (by omega) (by omega)
      simp only [waitLoop, hv, hc]
      have ht : ¬ tries + 1 = 12 := by omega
      simp only [ht, if_false]
      exact ih (tries + 1) (by omega) (by omega) hle
        (fun j hj1 hj2 => Hf j (by omega) hj2) Hs

/-- C5: the Poller evaluates its condition at most 12 times; it succeeds
on the first attempt whose condition is satisfied; and when the condition
fails on all 12 attempts it returns the condition's own failure
description from attempt 12, not a synthesized message. -/
theorem C5_poller_budget (fetch : Nat → Except String EC2Volume)
    (check : EC2Volume → Option String) :
    waitEvalCount fetch check ≤ 12 ∧
    (∀ k, 1 ≤ k → k ≤ 12 →
      (∀ j, 1 ≤ j → j < k → ∃ v m, fetch j = .ok v ∧ check v = some m) →
      (∃ v, fetch k = .ok v ∧ check v = none) →
      waitUntilState fetch check = .ok ()) ∧
    (∀ msg : Nat → String,
      (∀ j, 1 ≤ j → j ≤ 12 → ∃ v, fetch j = .ok v ∧ check v = some (msg j)) →
      waitUntilState fetch check = .error (msg 12)) := by
  refine ⟨waitLoop_count_le fetch check 12 0, ?_, ?_⟩
  · intro k h1 h12 Hf Hs
    exact waitLoop_first_success fetch check k 12 0 rfl h1 h12
      (fun j hj1 hj2 => Hf j hj1 hj2) Hs
  · intro msg H
    exact waitLoop_all_fail fetch check msg H 12 0 rfl (by omega)

/-- C5 witness: a condition that always fails, with a description naming
the attempt number, makes the Poller return attempt 12's description. -/
theorem C5_poller_budget_witness :
    waitUntilState fetchC5 checkC5 = .error (toString 12) := by
  refine (C5_poller_budget fetchC5 checkC5).2.2 (fun j => toString j) ?_
  intro j h1 h2
  exact ⟨{ volumeId := toString j, state := "creating", attachments := [], tags := [] },
    rfl, rfl⟩

/-- A scan step over an occupied slot (either alias exists) just recurses
on the remaining letters. -/
theorem attachScan_cons_occupied (env : AttachEnv) (name : String) (a : Char)
    (rest : List Char)
    (h : env.lstat ("/dev/sd" ++ String.mk [a]) = true ∨
      env.lstat ("/dev/xvd" ++ String.mk [a]) = true) :
    attachScan env name (a :: rest) = attachScan env name rest := by
  simp only [attachScan]
  rcases h with h | h
  · rw [if_pos h]
  · rcases Bool.eq_false_or_eq_true (env.lstat ("/dev/sd" ++ String.mk [a])) with
      h2 | h2
    · rw [if_pos h2]
    · rw [if_neg (by simp [h2]), if_pos h]

/-- When the first free slot letter (neither alias path exists) in the
remaining scan list is `c`, the first provider call the scan issues is an
attach request at `/dev/sd<c>`. -/
theorem attachScan_first_free (env : AttachEnv) (name : String) :
    ∀ (ls : List Char) (c : Char),
      ls.find? (fun l => !(env.lstat ("/dev/sd" ++ String.mk [l]) ||
        env.lstat ("/dev/xvd" ++ String.mk [l]))) = some c →
      (attachScan env name ls).2.head? =
        some (.attachVolume ("/dev/sd" ++ String.mk [c])) := by
  intro ls
  induction ls with
  | nil => intro c h; simp at h
  | cons a rest ih =>
    intro c h
    rw [List.find?_cons] at h
    cases hb : (!(env.lstat ("/dev/sd" ++ String.mk [a]) ||
        env.lstat ("/dev/xvd" ++ String.mk [a]))) with
    | true =>
      rw [hb] at h
      have hc : a = c := by simpa using h
      subst hc
      have hdevalt : env.lstat ("/dev/sd" ++ String.mk [a]) = false ∧
          env.lstat ("/dev/xvd" ++ String.mk [a]) = false := by
        simpa [Bool.or_eq_false_iff] using hb
      simp only [attachScan]
      rw [if_neg (by simp [hdevalt.1]), if_neg (by simp [hdevalt.2])]
      cases hcall : env.attachCall ("/dev/sd" ++ String.mk [a]) with
      | invalidParameterValue => simp [hcall]
      | otherError e => simp [hcall]
      | ok =>
        cases hwait : env.waitAttached ("/dev/sd" ++ String.mk [a]) with
        | error e => simp [hcall, hwait]
        | ok u =>
          by_cases h1 : env.lstatAfter ("/dev/sd" ++ String.mk [a])
              ("/dev/sd" ++ String.mk [a]) = true
          · simp [hcall, hwait, h1]
          · by_cases h2 : env.lstatAfter ("/dev/sd" ++ String.mk [a])
                ("/dev/xvd" ++ String.mk [a]) = true
            · simp [hcall, hwait, h1, h2]
            · simp [hcall, hwait, h1, h2]
    | false =>
      rw [hb] at h
      simp only at h
      have hor : env.lstat ("/dev/sd" ++ String.mk [a]) = true ∨
          env.lstat ("/dev/xvd" ++ String.mk [a]) = true := by
        rcases Bool.eq_false_or_eq_true (env.lstat ("/dev/sd" ++ String.mk [a])) with
          h1 | h1
        · exact Or.inl h1
        · rcases Bool.eq_false_or_eq_true (env.lstat ("/dev/xvd" ++ String.mk [a])) with
            h2 | h2
          · exact Or.inr h2
          · exact absurd hb (by simp [h1, h2])
      rw [attachScan_cons_occupied env name a rest hor]
      exact ih c h

/-- C2: when the Allocator reaches its slot scan (lookup succeeded, the
idempotent short-circuit fell through, the availability wait succeeded),
the first provider call it issues is an attach request naming the primary
device path `/dev/sd<c>` of the first slot letter `c`, in the fixed order
`f..p`, for which neither local alias path exists. -/
theorem C2_scan_order (env : AttachEnv) (name : String) (v : EC2Volume) (c : Char)
    (hv : env.getVolume = .ok v)
    (hshort : attachShort env name v = none)
    (hw : env.waitAvailable = .ok ())
    (hfind : slotLetters.find? (fun l => !(env.lstat ("/dev/sd" ++ String.mk [l]) ||
      env.lstat ("/dev/xvd" ++ String.mk [l]))) = some c) :
    (attachVolume env name).2.head? =
      some (.attachVolume ("/dev/sd" ++ String.mk [c])) := by
  simp only [attachVolume, hv, hshort, hw]
  exact attachScan_first_free env name slotLetters c hfind

/-- C2 witness: with `f` occupied via `/dev/sdf` and `g` occupied via
`/dev/xvdg`, the first attach request names `/dev/sdh`. -/
theorem C2_scan_order_witness :
    (attachVolume scanEnvFG "vol1").2.head? =
      some (.attachVolume ("/dev/sd" ++ String.mk ['h'])) :=
  C2_scan_order scanEnvFG "vol1" unattachedVol 'h' rfl rfl rfl (by rfl)

/-- A scan over letters whose slots are all occupied issues no provider
call and fails with the device-exhausted message. -/
theorem attachScan_exhausted (env : AttachEnv) (name : String) :
    ∀ ls : List Char,
      (∀ l ∈ ls, env.lstat ("/dev/sd" ++ String.mk [l]) = true ∨
        env.lstat ("/dev/xvd" ++ String.mk [l]) = true) →
      attachScan env name ls =
        (.error "No devices available for attach: /dev/sd[f-p] taken.", []) := by
  intro ls
  induction ls with
  | nil => intro _; rfl
  | cons a rest ih =>
    intro hocc
    rw [attachScan_cons_occupied env name a rest (hocc a (List.mem_cons_self a rest))]
    exact ih (fun l hl => hocc l (List.mem_cons_of_mem a hl))

/-- C3: when the Allocator reaches its slot scan and every one of the 11
candidate slots is occupied (either alias path exists), `attachVolume`
returns the device-exhausted error and issues no provider call. -/
theorem C3_device_exhausted (env : AttachEnv) (name : String) (v : EC2Volume)
    (hv : env.getVolume = .ok v)
    (hshort : attachShort env name v = none)
    (hw : env.waitAvailable = .ok ())
    (hocc : ∀ l ∈ slotLetters, env.lstat ("/dev/sd" ++ String.mk [l]) = true ∨
      env.lstat ("/dev/xvd" ++ String.mk [l]) = true) :
    attachVolume env name =
      (.error "No devices available for attach: /dev/sd[f-p] taken.", []) := by
  simp only [attachVolume, hv, hshort, hw]
  exact attachScan_exhausted env name slotLetters hocc

/-- C3 witness: with every slot occupied, the concrete environment yields
the exhausted error and an empty provider-call trace. -/
theorem C3_device_exhausted_witness :
    attachVolume scanEnvFull "vol1" =
      (.error "No devices available for attach: /dev/sd[f-p] taken.", []) :=
  C3_device_exhausted scanEnvFull "vol1" unattachedVol rfl rfl rfl
    (fun _ _ => Or.inl rfl)

/-- C4 counterexample: a volume with exactly one attachment, owned by the
current host, in state `attached` — but with NEITHER local alias path
present — does not make `attachVolume` return the claimed device path
immediately: control falls through to the availability wait, whose failure
is returned instead. -/
theorem C4_counterexample :
    ghostAttachEnv.getVolume = .ok attachedVol ∧
    attachedVol.attachments = [attachedAtF] ∧
    attachedAtF.state = volumeAttachmentStateAttached ∧
    attachedAtF.instanceId = ghostAttachEnv.instanceId ∧
    attachVolume ghostAttachEnv "vol1" =
      (.error "Volume state transition failed: seeking available, current is in-use",
        []) :=
  ⟨rfl, rfl, rfl, rfl, rfl⟩

/-- C4 (amended): for a volume with exactly one attachment owned by the
current host in state `attached`, whose device name matches
`/dev/(xv|s)d[f-p]` with slot letter `l`, if a local alias of slot `l`
exists then `attachVolume` returns that alias immediately — preferring
`/dev/sd<l>` — with an empty provider-call trace, regardless of the
availability-wait, attach-call and attached-wait oracles (so no attach
request is issued and no state transition is awaited). -/
theorem C4_attach_idempotent (env : AttachEnv) (name : String) (v : EC2Volume)
    (a : Attachment) (l : Char)
    (hv : env.getVolume = .ok v)
    (hatts : v.attachments = [a])
    (hstate : a.state = volumeAttachmentStateAttached)
    (hinst : a.instanceId = env.instanceId)
    (hmatch : matchDevice a.device.data = some l) :
    (env.lstat ("/dev/sd" ++ String.mk [l]) = true →
      attachVolume env name = (.ok ("/dev/sd" ++ String.mk [l]), [])) ∧
    (env.lstat ("/dev/sd" ++ String.mk [l]) = false →
      env.lstat ("/dev/xvd" ++ String.mk [l]) = true →
      attachVolume env name = (.ok ("/dev/xvd" ++ String.mk [l]), [])) := by
  constructor
  · intro h1
    simp [attachVolume, hv, attachShort, hatts, hstate, hinst, hmatch, h1]
  · intro h1 h2
    simp [attachVolume, hv, attachShort, hatts, hstate, hinst, hmatch, h1, h2]

/-- C4 (amended) witness: the already-attached volume at slot `f` with
`/dev/sdf` present locally is returned immediately with no provider
call. -/
theorem C4_attach_idempotent_witness :
    attachVolume presentAttachEnv "vol1" = (.ok ("/dev/sd" ++ String.mk ['f']), []) :=
  (C4_attach_idempotent presentAttachEnv "vol1" attachedVol attachedAtF 'f'
    rfl rfl rfl rfl rfl).1 rfl

/-- C6: when `Create`'s provider creation and attach both succeed, the
volume is detached again whether or not formatting succeeds: on `mkfs`
failure `Create` issues the compensating detach and returns the formatting
error — not the detach's error, whose outcome (the `detach` field, left
arbitrary) never reaches the result — and on `mkfs` success it also
detaches before returning success. -/
theorem C6_create_detaches (env : CreateEnv) (name : String)
    (options : List (String × String)) (volumeId device : String)
    (hc : env.createVolume (parseInt64 (optGet options "size")).1 = .ok volumeId)
    (ha : env.attach.1 = .ok device) :
    (∀ out, env.mkfs device = some out →
      Create env name options =
        (some ("Formatting device " ++ device ++ " failed: " ++ out),
         [.createVolume (parseInt64 (optGet options "size")).1,
          .createTags volumeId name] ++ env.attach.2 ++ [.detachVolume])) ∧
    (env.mkfs device = none →
      Create env name options =
        (none,
         [.createVolume (parseInt64 (optGet options "size")).1,
          .createTags volumeId name] ++ env.attach.2 ++ [.detachVolume])) := by
  constructor
  · intro out hout
    simp [Create, hc, ha, hout]
  · intro hout
    simp [Create, hc, ha, hout]

/-- C6 witness: a failing `mkfs` together with a failing detach still
returns the formatting error, with the compensating detach issued last. -/
theorem C6_create_detaches_witness :
    Create mkfsFailEnv "vol1" [("size", "10")] =
      (some ("Formatting device " ++ "/dev/sdf" ++ " failed: " ++ "mkfs: wrong fs type"),
       [.createVolume (parseInt64 (optGet [("size", "10")] "size")).1,
        .createTags "vol-1" "vol1"] ++ mkfsFailEnv.attach.2 ++ [.detachVolume]) :=
  (C6_create_detaches mkfsFailEnv "vol1" [("size", "10")] "vol-1" "/dev/sdf"
    rfl rfl).1 "mkfs: wrong fs type" rfl

/-- Folding the digit accumulator from `none` stays `none`. -/
theorem parseDigits_foldl_none (cs : List Char) :
    cs.foldl
      (fun acc c =>
        match acc with
        | none => none
        | some n => if c.isDigit then some (n * 10 + (c.toNat - '0'.toNat)) else none)
      none = none := by
  induction cs with
  | nil => rfl
  | cons c cs ih => simpa using ih

/-- The digit fold from a `some` accumulator fails exactly when some
character is not a digit. -/
theorem parseDigits_foldl_some (cs : List Char) :
    ∀ n : Nat,
      cs.foldl
        (fun acc c =>
          match acc with
          | none => none
          | some n => if c.isDigit then some (n * 10 + (c.toNat - '0'.toNat)) else none)
        (some n) = none ↔ cs.all Char.isDigit = false := by
  induction cs with
  | nil => intro n; simp
  | cons c cs ih =>
    intro n
    by_cases hc : c.isDigit
    · simpa [hc] using ih (n * 10 + (c.toNat - '0'.toNat))
    · simp [hc]
      exact parseDigits_foldl_none cs

/-- A syntactically invalid decimal literal parses to the zero value (Go
returns `0` together with the ignored syntax error). -/
theorem parseInt64_invalid (s : String) (h : syntaxValidInt s = false) :
    (parseInt64 s).1 = 0 := by
  unfold parseInt64
  unfold syntaxValidInt at h
  cases hs : s.toList with
  | nil => simp
  | cons c cs =>
    rw [hs] at h
    simp only at h ⊢
    by_cases hplus : c = '+'
    · have hdig : parseDigits cs = none := by
        unfold parseDigits
        cases hcs : cs with
        | nil => rfl
        | cons d ds =>
          simp only [hplus, true_or, if_pos] at h
          rw [hcs] at h
          simp only [Bool.and_eq_false_iff] at h
          rcases h with h | h
          · simp at h
          · rw [parseDigits_foldl_some]
            exact h
      simp [hplus, hdig]
    · by_cases hminus : c = '-'
      · have hdig : parseDigits cs = none := by
          unfold parseDigits
          cases hcs : cs with
          | nil => rfl
          | cons d ds =>
            simp only [hminus, or_true, if_pos] at h
            rw [hcs] at h
            simp only [Bool.and_eq_false_iff] at h
            rcases h with h | h
            · simp at h
            · rw [parseDigits_foldl_some]
              exact h
        simp [hplus, hminus, hdig]
      · have hdig : parseDigits (c :: cs) = none := by
          unfold parseDigits
          have hor : ¬ (c = '+' ∨ c = '-') := by
            intro hh; rcases hh with hh | hh
            · exact hplus hh
            · exact hminus hh
          simp only [hor, if_neg, if_false] at h
          simp only [Bool.and_eq_false_iff] at h
          rcases h with h | h
          · simp at h
          · rw [parseDigits_foldl_some]
            exact h
        simp [hplus, hminus, hdig]

/-- C9: when the `size` option is missing or not a syntactically valid
decimal literal, `Create` does not reject the request: the provider
creation call is still the first call issued, with size 0. -/
theorem C9_size_lenient (env : CreateEnv) (name : String)
    (options : List (String × String))
    (h : syntaxValidInt (optGet options "size") = false) :
    (Create env name options).2.head? = some (.createVolume 0) := by
  have hz : (parseInt64 (optGet options "size")).1 = 0 :=
    parseInt64_invalid _ h
  simp only [Create, hz]
  cases hc : env.createVolume 0 with
  | error e => simp
  | ok volumeId =>
    cases hm : env.attach.1 with
    | error e => simp
    | ok device =>
      cases hk : env.mkfs device with
      | none => simp [hk]
      | some out => simp [hk]

/-- C9 witness: the malformed size option `10GB` still issues the provider
creation call with size 0. -/
theorem C9_size_lenient_witness :
    (Create mkfsFailEnv "vol1" [("size", "10GB")]).2.head? =
      some (.createVolume 0) :=
  C9_size_lenient mkfsFailEnv "vol1" [("size", "10GB")] (by rfl)

end Blocker
